import Mathlib

/-
  Verification of the innisfree tunnel lifecycle controller (Rust) against
  its natural-language specification. Shallow embedding: the relevant Rust
  functions are translated into executable Lean definitions; subprocess,
  filesystem and network effects are threaded explicitly through environment
  records, mirroring the control flow of the source.
-/

set_option maxRecDepth 4096

deriving instance DecidableEq for Except

/-! ## Service port parsing (src/config.rs) -/

/-- Model of Rust `str::parse::<i32>()` on a list of characters: an optional
leading sign, then one or more ASCII digits; the value must fit in i32,
otherwise the parse errors. -/
def parse_i32 (cs : List Char) : Except Unit Int :=
  let signed : Bool × List Char :=
    match cs with
    | '-' :: rest => (true, rest)
    | '+' :: rest => (false, rest)
    | _ => (false, cs)
  let neg := signed.1
  let digits := signed.2
  if digits.isEmpty then .error ()
  else if digits.all Char.isDigit then
    let n : Nat := digits.foldl (fun a c => a * 10 + (c.toNat - 48)) 0
    let v : Int := if neg then -(n : Int) else (n : Int)
    if v < -2147483648 ∨ v > 2147483647 then .error () else .ok v
  else .error ()

/-- Model of Rust `str::split(sep)` for a single-character separator:
splits the character list at every occurrence of `sep`, keeping empty
segments (so the result is always nonempty). -/
def rustSplit (sep : Char) : List Char → List (List Char)
  | [] => [[]]
  | c :: rest =>
    let r := rustSplit sep rest
    if c = sep then [] :: r
    else
      match r with
      | h :: t => (c :: h) :: t
      | [] => [[c]]

/-- `ServicePort` from src/config.rs: public port, local port, protocol. -/
structure ServicePort where
  port : Int
  local_port : Int
  protocol : String
  deriving DecidableEq, Repr

/-- `ServicePort::default()`: port 80, local port 80, protocol TCP. -/
def ServicePort.default : ServicePort :=
  { port := 80, local_port := 80, protocol := "TCP" }

/-- `TryFrom<&str> for ServicePort` (src/config.rs lines 62-81): split on
`/` for the optional protocol, then split the port component on `:`;
the first part is the public port, the optional second part the local
port (defaulting to the public port). Ports are parsed as i32 with no
further range check. -/
def ServicePort.try_from (port_spec : String) : Except Unit ServicePort :=
  let port_and_proto_spec := rustSplit '/' port_spec.data
  let protocol : String :=
    match port_and_proto_spec.get? 1 with
    | some p => ⟨p⟩
    | none => "TCP"
  let port_spec2 := port_and_proto_spec.headD []
  let port_spec_parts := rustSplit ':' port_spec2
  match parse_i32 (port_spec_parts.headD []) with
  | .error e => .error e
  | .ok port =>
    match port_spec_parts.get? 1 with
    | some p =>
      match parse_i32 p with
      | .error e => .error e
      | .ok lp => .ok { port := port, local_port := lp, protocol := protocol }
    | none => .ok { port := port, local_port := port, protocol := protocol }

/-- `ServicePort::from_str_multi` (src/config.rs lines 31-36): split on
commas and `flat_map` each component through `try_from`. In Rust,
`flat_map` over a `Result` yields the value on `Ok` and nothing on `Err`,
so parse failures are silently dropped and the function always returns
`Ok`. -/
def ServicePort.from_str_multi (port_spec : String) : Except Unit (List ServicePort) :=
  .ok ((rustSplit ',' port_spec.data).foldr
    (fun x acc =>
      (match ServicePort.try_from ⟨x⟩ with
       | .ok v => [v]
       | .error _ => []) ++ acc) [])

/-! ## Name sanitization (src/config.rs `clean_name`) -/

/-- Model of Rust `str::replace`, fuel-indexed so it reduces by evaluation:
scan left to right; at each position, if the (nonempty) pattern matches,
emit the replacement and skip past the match, else keep one character.
This matches `match_indices`-based non-overlapping replacement. Fuel is
the length of the subject string, which suffices since each step consumes
at least one character. -/
def rustReplaceFuel : Nat → List Char → List Char → List Char → List Char
  | 0, s, _, _ => s
  | _ + 1, [], _, _ => []
  | fuel + 1, c :: rest, pat, rep =>
    if pat ≠ [] ∧ pat.isPrefixOf (c :: rest) then
      rep ++ rustReplaceFuel fuel ((c :: rest).drop pat.length) pat rep
    else
      c :: rustReplaceFuel fuel rest pat rep

/-- Rust `String::replace(pat, rep)` on Lean strings. -/
def strReplace (s pat rep : String) : String :=
  ⟨rustReplaceFuel s.data.length s.data pat.data rep.data⟩

/-- `clean_name` (src/config.rs lines 108-118): return `"innisfree"`
unchanged; otherwise replace every occurrence of `"-innisfree"`, then
every occurrence of `"innisfree-"`, and prepend `"innisfree-"`. -/
def clean_name (name : String) : String :=
  if name = "innisfree" then name
  else
    let orig := strReplace name "-innisfree" ""
    let orig := strReplace orig "innisfree-" ""
    "innisfree-" ++ orig

/-- The sanitization as claim C6 words it: strip one `innisfree-` prefix
and one `-innisfree` suffix (only at the ends of the string), then
prepend `innisfree-`. Used to compare the claim's wording against the
source's `clean_name`. -/
def clean_name_claimed (name : String) : String :=
  if name = "innisfree" then name
  else
    let s1 : List Char :=
      if "innisfree-".data.isPrefixOf name.data
      then name.data.drop "innisfree-".data.length
      else name.data
    let s2 : List Char :=
      if "-innisfree".data.isSuffixOf s1
      then s1.take (s1.length - "-innisfree".data.length)
      else s1
    "innisfree-" ++ ⟨s2⟩

/-! ## Subnet allocator (src/net.rs) -/

/-- An IP network, as in the `ipnet` crate: an address (IPv4 as a 32-bit
natural number) and a prefix length. -/
structure IpNet where
  addr : Nat
  prefixLen : Nat
  deriving DecidableEq, Repr

/-- `Ipv4Net::network()`: the address with host bits zeroed. -/
def IpNet.network (n : IpNet) : Nat :=
  n.addr - n.addr % 2 ^ (32 - n.prefixLen)

/-- `Ipv4Net::subnets(p)`: the subnets of prefix length `p` covering the
network's range, in ascending order of network address. -/
def IpNet.subnets (n : IpNet) (p : Nat) : List IpNet :=
  (List.range (2 ^ (p - n.prefixLen))).map
    (fun i => { addr := n.network + i * 2 ^ (32 - p), prefixLen := p })

/-- `Ipv4Net::hosts()`: the usable addresses of the network; for prefix
lengths up to 30 the network and broadcast addresses are excluded. -/
def IpNet.hosts (n : IpNet) : List Nat :=
  let size := 2 ^ (32 - n.prefixLen)
  let all := (List.range size).map (fun i => n.network + i)
  if n.prefixLen ≥ 31 then all else (all.drop 1).dropLast

/-- `INNISFREE_SUBNET` (src/net.rs line 13): the parsed value of
`"10.50.0.1/28"`, i.e. address 10·2^24 + 50·2^16 + 1 = 171048961,
prefix length 28. -/
def INNISFREE_SUBNET : IpNet := { addr := 171048961, prefixLen := 28 }

/-- `subnet_available` (src/net.rs lines 31-39): start from `true` and
flip to `false` whenever a host address of the subnet is bound on the
local system. `address_in_use` is the host state: which addresses are
currently assigned to some local interface. -/
def subnet_available (address_in_use : Nat → Bool) (n : IpNet) : Bool :=
  n.hosts.foldl (fun avail h => if address_in_use h then false else avail) true

/-- The `for subnet in subnets` loop body of `generate_unused_subnet`:
skip candidates with more than two usable hosts, return the first
available one, and error once the list is exhausted. -/
def generate_unused_subnet_loop (address_in_use : Nat → Bool) :
    List IpNet → Except String IpNet
  | [] => .error "No available subnets within 10.50.0.1/28"
  | sn :: rest =>
    if sn.hosts.length > 2 then generate_unused_subnet_loop address_in_use rest
    else if subnet_available address_in_use sn then .ok sn
    else generate_unused_subnet_loop address_in_use rest

/-- `generate_unused_subnet` (src/net.rs lines 45-62): enumerate the /30
subnets of the parent range and return the first whose host addresses
are all unbound. -/
def generate_unused_subnet (address_in_use : Nat → Bool) : Except String IpNet :=
  generate_unused_subnet_loop address_in_use (INNISFREE_SUBNET.subnets 30)

/-! ## Cloud-init emission (src/src/server/cloudinit.rs) -/

/-- The final lines of `generate_user_data` (src/server/cloudinit.rs lines
103-109): take the serializer output `cc_rendered`, drop its first four
bytes (`&cc_rendered.as_bytes()[4..]`, which removes the serializer's
`---\n` document start marker), and prepend the literal header
`#cloud-config` followed by a newline. Characters model bytes here; the
two coincide on the ASCII marker this slice removes. -/
def generate_user_data_finalize (cc_rendered : String) : String :=
  let cc_rendered_no_header : String := ⟨cc_rendered.data.drop 4⟩
  "#cloud-config" ++ "\n" ++ cc_rendered_no_header

/-! ## Proxy engine (src/proxy.rs, src/manager.rs run_proxy) -/

/-- A socket address, as built by `format!("ip:port")` followed by
`SocketAddr` parsing in `run_proxy`. -/
structure SocketAddrM where
  ip : String
  port : Int
  deriving DecidableEq, Repr

/-- Formatting `ip:port` and parsing it back as a `SocketAddr` succeeds
exactly when the port fits in u16 (the IP string is taken as valid). -/
def mkSocketAddr (ip : String) (port : Int) : Except Unit SocketAddrM :=
  if 0 ≤ port ∧ port < 65536 then .ok { ip := ip, port := port } else .error ()

/-- The address computation of `run_proxy` (src/manager.rs lines 290-320):
for each service, the listener address is `local_ip : local_port` and the
destination address is `dest_ip : port`; either parse failure aborts. The
returned pairs are handed to `proxy_handler` in order. -/
def run_proxy_addrs (local_ip dest_ip : String) :
    List ServicePort → Except Unit (List (SocketAddrM × SocketAddrM))
  | [] => .ok []
  | s :: rest =>
    match mkSocketAddr local_ip s.local_port with
    | .error e => .error e
    | .ok listen_addr =>
      match mkSocketAddr dest_ip s.port with
      | .error e => .error e
      | .ok dest_addr =>
        match run_proxy_addrs local_ip dest_ip rest with
        | .error e => .error e
        | .ok t => .ok ((listen_addr, dest_addr) :: t)

/-- `proxy_handler`/`transfer` (src/proxy.rs lines 18-53): each connection
accepted on the listener spawns `transfer`, whose first step is an
outbound `TcpStream::connect(dest_addr)`. Given the number of accepted
connections, this returns the outbound connections made. -/
def proxy_handler_outbound (dest_addr : SocketAddrM) (accepted : Nat) :
    List SocketAddrM :=
  List.replicate accepted dest_addr

/-! ## Provider destroy (src/server/digitalocean/server.rs, ssh_key.rs) -/

/-- `DigitalOceanSshKey` (src/server/digitalocean/ssh_key.rs): the
registered SSH public key and its provider-assigned numeric id. -/
structure DigitalOceanSshKey where
  public_key : String
  name : String
  fingerprint : String
  id : Nat
  deriving DecidableEq, Repr

/-- `Droplet` (src/server/digitalocean/server.rs): id, status, and the
optional registered SSH key recorded for cleanup. The `networks` map is
external API data and is not needed by the destroy path modelled here. -/
structure Droplet where
  id : Nat
  status : String
  ssh_pubkey : Option DigitalOceanSshKey
  deriving DecidableEq, Repr

/-- HTTP requests issued by `Droplet::destroy`. -/
inductive DoRequest where
  | deleteSshKey (id : Nat)
  | deleteDroplet (id : Nat)
  deriving DecidableEq, Repr

/-- Environment for `Droplet::destroy`: the outcome of the SSH-key DELETE
request, the outcome of the droplet DELETE request, and whether the
`DIGITALOCEAN_API_TOKEN` environment variable is set. -/
structure DestroyEnv where
  sshKeyDelete : Except String Unit
  dropletDelete : Except String Unit
  apiToken : Option String
  deriving DecidableEq, Repr

/-- `Droplet::destroy` (src/server/digitalocean/server.rs lines 207-229):
if an SSH key is recorded, call `k.destroy().await?` — the `?` propagates
a deletion failure, aborting before the droplet DELETE. Only then is the
API token read and the droplet DELETE request issued. Returns the
requests issued, in order, together with the overall result. -/
def Droplet.destroy (d : Droplet) (env : DestroyEnv) :
    List DoRequest × Except String Unit :=
  let step1 : List DoRequest × Except String Unit :=
    match d.ssh_pubkey with
    | some k =>
      match env.sshKeyDelete with
      | .error e => ([.deleteSshKey k.id], .error ("Failed to delete ssh key: " ++ e))
      | .ok _ => ([.deleteSshKey k.id], .ok ())
    | none => ([], .ok ())
  match step1.2 with
  | .error e => (step1.1, .error e)
  | .ok _ =>
    match env.apiToken with
    | none => (step1.1, .error "DIGITALOCEAN_API_TOKEN not set.")
    | some _ =>
      match env.dropletDelete with
      | .error e => (step1.1 ++ [.deleteDroplet d.id],
          .error ("Failed to destroy droplet: " ++ e))
      | .ok _ => (step1.1 ++ [.deleteDroplet d.id], .ok ())

/-! ## WireGuard data model and rendering (src/wg.rs) -/

/-- `WireguardKeypair` (src/wg.rs): private and public key material.
The Rust field names are `private`/`public`, which are keywords here. -/
structure WireguardKeypair where
  privateKey : String
  publicKey : String
  deriving DecidableEq, Repr

/-- `WireguardHost` (src/wg.rs): one peerable endpoint. Addresses are kept
in display form, as they are rendered into configs. -/
structure WireguardHost where
  name : String
  address : String
  endpoint : Option String
  listenport : Int
  keypair : WireguardKeypair
  deriving DecidableEq, Repr

/-- `WireguardDevice` (src/wg.rs): one side of the tunnel. -/
structure WireguardDevice where
  name : String
  interface : WireguardHost
  peer : WireguardHost
  deriving DecidableEq, Repr

/-- `WireguardManager` (src/wg.rs): both devices plus their addresses. -/
structure WireguardManager where
  wg_local_ip : String
  wg_local_device : WireguardDevice
  wg_remote_ip : String
  wg_remote_device : WireguardDevice
  deriving DecidableEq, Repr

/-- Modelled from the spec: the Tera template `files/wg0.conf.j2` is not
under `src/`, so the WireGuard INI rendering of
`WireguardDevice::config_with_services` is reconstructed from spec §4.3:
an `[Interface]` section with the interface address (with `/32` suffix),
its private key, and `ListenPort` when nonzero; `PostUp`/`PreDown`
firewall-rule directives, one pair per `ServicePort`; and a `[Peer]`
section with the peer's public key, its address as `AllowedIPs`, and an
`Endpoint` when the peer has one. -/
def wg_config_with_services (d : WireguardDevice) (services : List ServicePort) : String :=
  "[Interface]\n" ++
  "Address = " ++ d.interface.address ++ "/32\n" ++
  "PrivateKey = " ++ d.interface.keypair.privateKey ++ "\n" ++
  (if d.interface.listenport ≠ 0
   then "ListenPort = " ++ toString d.interface.listenport ++ "\n" else "") ++
  String.join (services.map (fun s =>
    "PostUp = iptables -A INPUT -p tcp --dport " ++ toString s.port ++ " -j ACCEPT\n" ++
    "PreDown = iptables -D INPUT -p tcp --dport " ++ toString s.port ++ " -j ACCEPT\n")) ++
  "[Peer]\n" ++
  "PublicKey = " ++ d.peer.keypair.publicKey ++ "\n" ++
  "AllowedIPs = " ++ d.peer.address ++ "/32\n" ++
  (match d.peer.endpoint with
   | some e => "Endpoint = " ++ e ++ ":" ++ toString d.peer.listenport ++ "\n"
   | none => "")

/-! ## Tunnel controller (src/manager.rs) -/

/-- `TunnelManager` (src/manager.rs lines 20-36). The provider server
handle (`Box<dyn InnisfreeServer>`) performs I/O only; its observable
behaviour is threaded through `UpEnv` instead of being stored here. -/
structure TunnelManager where
  services : List ServicePort
  name : String
  wg : WireguardManager
  static_ip : Option String
  deriving DecidableEq, Repr

/-- A spawned subprocess, by program name and arguments. -/
structure Cmd where
  program : String
  args : List String
  deriving DecidableEq, Repr

/-- Environment for `TunnelManager::up`: the outcomes of the external
effects it performs, in program order. Subprocess fields carry
`Except spawnError exitStatus`: Rust's `Command::status()` errors only
when the process cannot be spawned, and otherwise returns the exit
status as a value. -/
structure UpEnv where
  ipv4_address : Except String String
  cloudinit_ssh : Except String Int
  wg_write : Except String Unit
  remote_wg_ssh : Except String Int
  local_wg_down : Except String Int
  local_wg_up : Except String Int
  ping : Except String Int
  deriving DecidableEq, Repr

/-- `run_ssh_cmd` (src/manager.rs lines 210-237): spawn `ssh` and call
`.status()` with a context on the spawn error. The exit status of the
remote command is not inspected; any exit status yields `Ok(())`. -/
def run_ssh_cmd (spawn : Except String Int) : Except String Unit :=
  match spawn with
  | .error e => .error ("ssh command failed: " ++ e)
  | .ok _ => .ok ()

/-- `test_connection` (src/manager.rs lines 142-156): run
`ping -c1 -w5 <remote wg ip>` via `Command::status()`. The `.context`
converts a spawn failure into an error, but the exit status value is
discarded: a non-zero ping exit still yields `Ok(())`. Returns the
command issued and the result. -/
def test_connection (wg_remote_ip : String) (spawn : Except String Int) :
    Cmd × Except String Unit :=
  ({ program := "ping", args := ["-c1", "-w5", wg_remote_ip] },
   match spawn with
   | .error e => .error ("Failed to ping remote Wireguard interface, tunnel broken: " ++ e)
   | .ok _ => .ok ())

/-- `TunnelManager::up` (src/manager.rs lines 77-99), step by step:
wait for SSH (which first needs `ipv4_address()?`; the connect loop
itself retries until success), wait for cloud-init over SSH, clone the
local WireGuard device, set the clone's peer endpoint to the server's
public IP, write the clone's filtered config to `<name>.conf`, bring up
the remote then the local interface, and test the connection. `up` takes
`&self`; the returned manager is the (unchanged) state, paired with the
files written. -/
def TunnelManager.up (m : TunnelManager) (env : UpEnv) :
    Except String (TunnelManager × List (String × String)) :=
  match env.ipv4_address with
  | .error e => .error e
  | .ok _ =>
    match run_ssh_cmd env.cloudinit_ssh with
    | .error e => .error ("failed while waiting for cloudinit: " ++ e)
    | .ok _ =>
      match env.ipv4_address with
      | .error e => .error e
      | .ok ip =>
        let wg := m.wg.wg_local_device
        let wg := { wg with peer := { wg.peer with endpoint := some ip } }
        let conf := wg_config_with_services wg m.services
        match env.wg_write with
        | .error e => .error ("failed to write wireguard configs: " ++ e)
        | .ok _ =>
          match run_ssh_cmd env.remote_wg_ssh with
          | .error e => .error ("failed to bring up remote wg interface: " ++ e)
          | .ok _ =>
            let _down := env.local_wg_down
            match env.local_wg_up with
            | .error e => .error ("failed to bring up local wg interface: " ++ e)
            | .ok _ =>
              match (test_connection m.wg.wg_remote_ip env.ping).2 with
              | .error e => .error e
              | .ok _ => .ok (m, [(m.name ++ ".conf", conf)])

/-! ## Lifecycle supervisor (src/manager.rs block, src/main.rs) -/

/-- Observable actions of the supervisor paths. -/
inductive MainAction where
  | runClean
  | exitCode (code : Nat)
  deriving DecidableEq, Repr

/-- `TunnelManager::block` (src/manager.rs lines 126-139): await
`signal::ctrl_c()`. If the handler fires (`Ok`), run `clean().await?`
and then `exit(0)`; a failing `clean` propagates its error instead of
exiting. If installing the handler fails (`Err`), `exit(10)` without
running `clean`. Inputs are the handler-installation outcome and the
result `clean()` would produce; the output is the list of observable
actions and the returned value. -/
def TunnelManager.block (ctrl_c : Except String Unit)
    (clean_result : Except String Unit) : List MainAction × Except String Unit :=
  match ctrl_c with
  | .ok _ =>
    match clean_result with
    | .ok _ => ([.runClean, .exitCode 0], .ok ())
    | .error e => ([.runClean], .error e)
  | .error _ => ([.exitCode 10], .ok ())

/-- The `up()` failure arm of `main` (src/main.rs lines 148-159): on
`Err`, invoke `clean().await` and then `exit(2)`; on `Ok`, continue. -/
def main_up_error_path (up_result : Except String Unit) : List MainAction :=
  match up_result with
  | .error _ => [.runClean, .exitCode 2]
  | .ok _ => []

/-! ## Concrete fixtures used by closed evaluations and witnesses -/

/-- A local WireGuard host as `WireguardManager::new` builds it. -/
def wg_local_host0 : WireguardHost :=
  { name := "innisfree-innisfree-t-local", address := "10.50.0.1",
    endpoint := none, listenport := 0,
    keypair := { privateKey := "LPRIV", publicKey := "LPUB" } }

/-- A remote WireGuard host as `WireguardManager::new` builds it. -/
def wg_remote_host0 : WireguardHost :=
  { name := "innisfree-innisfree-t-remote", address := "10.50.0.2",
    endpoint := none, listenport := 51820,
    keypair := { privateKey := "RPRIV", publicKey := "RPUB" } }

/-- The local device: local interface, remote peer. -/
def wg_local_device0 : WireguardDevice :=
  { name := "innisfree-innisfree-t-local",
    interface := wg_local_host0, peer := wg_remote_host0 }

/-- The remote device: remote interface, local peer. -/
def wg_remote_device0 : WireguardDevice :=
  { name := "innisfree-innisfree-t-remote",
    interface := wg_remote_host0, peer := wg_local_host0 }

/-- A concrete `WireguardManager`. -/
def wg_mgr0 : WireguardManager :=
  { wg_local_ip := "10.50.0.1", wg_local_device := wg_local_device0,
    wg_remote_ip := "10.50.0.2", wg_remote_device := wg_remote_device0 }

/-- A concrete tunnel manager for the default spec `80:8000/TCP`. -/
def m0 : TunnelManager :=
  { services := [{ port := 80, local_port := 8000, protocol := "TCP" }],
    name := "innisfree-t", wg := wg_mgr0, static_ip := none }

/-- An environment in which every effect of `up` succeeds and every
subprocess exits 0. -/
def env_ok : UpEnv :=
  { ipv4_address := .ok "203.0.113.9", cloudinit_ssh := .ok 0,
    wg_write := .ok (), remote_wg_ssh := .ok 0,
    local_wg_down := .ok 0, local_wg_up := .ok 0, ping := .ok 0 }

/-- Like `env_ok`, but the `ping` subprocess exits with status 1
(destination unreachable): the spawn succeeds, the echo fails. -/
def env_ping_fail : UpEnv := { env_ok with ping := .ok 1 }

/-- The file writes `up m0 env_ok` performs: the local device clone with
its peer endpoint set to the server's public IP, rendered to
`<name>.conf`. -/
def up_files0 : List (String × String) :=
  [("innisfree-t" ++ ".conf",
    wg_config_with_services
      { wg_local_device0 with
        peer := { wg_local_device0.peer with endpoint := some "203.0.113.9" } }
      m0.services)]

/-- A droplet with a registered SSH key (id 7). -/
def droplet0 : Droplet :=
  { id := 42, status := "active",
    ssh_pubkey := some { public_key := "ssh-ed25519 AAAA", name := "innisfree-t",
                         fingerprint := "fp", id := 7 } }

/-- A destroy environment whose SSH-key DELETE fails. -/
def envKeyFail : DestroyEnv :=
  { sshKeyDelete := .error "HTTP 403", dropletDelete := .ok (),
    apiToken := some "token" }

/-- A destroy environment in which both DELETE requests succeed. -/
def envAllOk : DestroyEnv :=
  { sshKeyDelete := .ok (), dropletDelete := .ok (), apiToken := some "token" }

/-! ## Claim theorems -/

/-- Claim C1, counterexample: for the service parsed from `80:8000/TCP`
(public port 80, local port 8000) and destination D = 203.0.113.9,
`run_proxy` computes a listener at the local WireGuard address on port
8000 (the local port) and a destination of D:80 (the public port) — not
a listener on port 80 forwarding to D:8000 as the claim states. -/
theorem c1_counterexample :
    run_proxy_addrs "10.50.0.1" "203.0.113.9"
        [{ port := 80, local_port := 8000, protocol := "TCP" }]
      = .ok [({ ip := "10.50.0.1", port := 8000 },
              { ip := "203.0.113.9", port := 80 })] ∧
    run_proxy_addrs "10.50.0.1" "203.0.113.9"
        [{ port := 80, local_port := 8000, protocol := "TCP" }]
      ≠ .ok [({ ip := "10.50.0.1", port := 80 },
              { ip := "203.0.113.9", port := 8000 })] := by
  decide

/-- Claim C1, amended: for a tunnel whose services were parsed from
`80:8000/TCP` and destination IP D, `run_proxy` binds its TCP listener at
the local WireGuard address on port 8000 (the local port), and each of
the `accepted` connections results in one outbound connection to D:80
(the public port). -/
theorem c1_run_proxy_ports :
    ∀ (localIp destIp : String) (accepted : Nat),
    ServicePort.from_str_multi "80:8000/TCP"
      = .ok [{ port := 80, local_port := 8000, protocol := "TCP" }] ∧
    run_proxy_addrs localIp destIp
        [{ port := 80, local_port := 8000, protocol := "TCP" }]
      = .ok [({ ip := localIp, port := 8000 }, { ip := destIp, port := 80 })] ∧
    proxy_handler_outbound { ip := destIp, port := 80 } accepted
      = List.replicate accepted { ip := destIp, port := 80 } := by
  intro localIp destIp accepted
  refine ⟨by decide, ?_, rfl⟩
  simp [run_proxy_addrs, mkSocketAddr]

/-- Claim C2: every valid spec in the claimed set parses successfully with
the expected ports, but for `"abc"` the parser does not fail: `flat_map`
silently discards the `try_from` error and `from_str_multi` returns
`Ok` with an empty list. -/
theorem c2_from_str_multi_eval :
    ServicePort.from_str_multi "80"
      = .ok [{ port := 80, local_port := 80, protocol := "TCP" }] ∧
    ServicePort.from_str_multi "80/TCP"
      = .ok [{ port := 80, local_port := 80, protocol := "TCP" }] ∧
    ServicePort.from_str_multi "80:8000"
      = .ok [{ port := 80, local_port := 8000, protocol := "TCP" }] ∧
    ServicePort.from_str_multi "80:8000/TCP"
      = .ok [{ port := 80, local_port := 8000, protocol := "TCP" }] ∧
    ServicePort.from_str_multi "80/TCP,443/TCP"
      = .ok [{ port := 80, local_port := 80, protocol := "TCP" },
             { port := 443, local_port := 443, protocol := "TCP" }] ∧
    ServicePort.from_str_multi "80:30080,443:30443"
      = .ok [{ port := 80, local_port := 30080, protocol := "TCP" },
             { port := 443, local_port := 30443, protocol := "TCP" }] ∧
    ServicePort.try_from "abc" = .error () ∧
    ServicePort.from_str_multi "abc" = .ok [] := by
  decide

/-- Claim C5, counterexample: the parser performs no 1..65535 range
check — `"88888:9999"` (public port above 65535), `"0"`, and `"-1"` are
all accepted. -/
theorem c5_counterexample :
    ServicePort.try_from "88888:9999"
      = .ok { port := 88888, local_port := 9999, protocol := "TCP" } ∧
    ¬ ((88888 : Int) ≤ 65535) ∧
    ServicePort.try_from "0"
      = .ok { port := 0, local_port := 0, protocol := "TCP" } ∧
    ServicePort.try_from "-1"
      = .ok { port := -1, local_port := -1, protocol := "TCP" } := by
  decide

/-- Claim C6, counterexample: `clean_name` removes `-innisfree` and
`innisfree-` anywhere in the string, not only as suffix/prefix
(`"a-innisfree-b"` becomes `"innisfree-a-b"`, while the claimed
strip-prefix/suffix behaviour would give `"innisfree-a-innisfree-b"`),
and it is not idempotent (`"innisinnisfree-free-"` maps to
`"innisfree-innisfree-"`, which maps on to `"innisfree-"`). -/
theorem c6_counterexample :
    clean_name "a-innisfree-b" = "innisfree-a-b" ∧
    clean_name_claimed "a-innisfree-b" = "innisfree-a-innisfree-b" ∧
    clean_name "a-innisfree-b" ≠ clean_name_claimed "a-innisfree-b" ∧
    clean_name (clean_name "innisinnisfree-free-")
      ≠ clean_name "innisinnisfree-free-" := by
  decide

/-- Claim C6, amended: `clean_name` returns `"innisfree"` unchanged;
otherwise it removes every occurrence of `-innisfree` and then of
`innisfree-` anywhere in the string and prepends `innisfree-`; the
documented examples hold, `clean_name` is idempotent on them, and every
result begins with `innisfree`. -/
theorem c6_clean_name_behavior :
    clean_name "innisfree" = "innisfree" ∧
    clean_name "foo" = "innisfree-foo" ∧
    clean_name "foo-innisfree" = "innisfree-foo" ∧
    clean_name "innisfree-foo" = "innisfree-foo" ∧
    clean_name (clean_name "foo") = clean_name "foo" ∧
    clean_name (clean_name "foo-innisfree") = clean_name "foo-innisfree" ∧
    clean_name (clean_name "innisfree-foo") = clean_name "innisfree-foo" ∧
    ∀ s : String, ∃ r : List Char, (clean_name s).data = "innisfree".data ++ r := by
  refine ⟨by decide, by decide, by decide, by decide, by decide, by decide, by decide, ?_⟩
  intro s
  by_cases h : s = "innisfree"
  · exact ⟨[], by simp [clean_name, h]⟩
  · refine ⟨'-' :: (strReplace (strReplace s "-innisfree" "") "innisfree-" "").data, ?_⟩
    simp only [clean_name, h, if_neg, ite_false]
    rw [String.data_append]
    rw [show "innisfree-".data = "innisfree".data ++ ['-'] by decide]
    simp [List.append_assoc]

/-- Claim C3, counterexample: with a registered SSH key whose DELETE
fails, `Droplet::destroy` propagates the error (via `?`), so the droplet
DELETE request is never issued — key deletion is not best-effort. -/
theorem c3_counterexample :
    (Droplet.destroy droplet0 envKeyFail).1 = [.deleteSshKey 7] ∧
    DoRequest.deleteDroplet 42 ∉ (Droplet.destroy droplet0 envKeyFail).1 ∧
    (Droplet.destroy droplet0 envKeyFail).2
      = .error "Failed to delete ssh key: HTTP 403" := by
  decide

/-- Claim C3, amended: when a key is registered, the SSH-key DELETE is
issued first; if it fails, `destroy` returns that error and the droplet
DELETE request is not issued, and only if it succeeds (and the API token
is set) is the droplet DELETE issued afterwards. -/
theorem c3_destroy_key_first :
    ∀ (d : Droplet) (env : DestroyEnv) (k : DigitalOceanSshKey),
    d.ssh_pubkey = some k →
    ((∀ e, env.sshKeyDelete = .error e →
        Droplet.destroy d env
          = ([.deleteSshKey k.id], .error ("Failed to delete ssh key: " ++ e))) ∧
     (env.sshKeyDelete = .ok () → env.apiToken.isSome = true →
        (Droplet.destroy d env).1 = [.deleteSshKey k.id, .deleteDroplet d.id])) := by
  intro d env k hk
  constructor
  · intro e he
    simp [Droplet.destroy, hk, he]
  · intro hok htok
    obtain ⟨t, ht⟩ := Option.isSome_iff_exists.mp htok
    cases hdel : env.dropletDelete <;>
      simp [Droplet.destroy, hk, hok, ht, hdel]

/-- Claim C3, witness for the amended theorem: concrete droplet with key
id 7; with a failing key DELETE only that request is issued and the
error is returned; with both succeeding, the key DELETE precedes the
droplet DELETE. -/
theorem c3_destroy_key_first_witness :
    Droplet.destroy droplet0 envKeyFail
      = ([.deleteSshKey 7], .error "Failed to delete ssh key: HTTP 403") ∧
    (Droplet.destroy droplet0 envAllOk).1
      = [.deleteSshKey 7, .deleteDroplet 42] :=
  ⟨(c3_destroy_key_first droplet0 envKeyFail _ rfl).1 "HTTP 403" rfl,
   (c3_destroy_key_first droplet0 envAllOk _ rfl).2 rfl rfl⟩

/-- Claim C4: `test_connection` runs `ping -c1 -w5 <remote wg ip>`, but
`Command::status()` only errors when the spawn fails; the exit status
value is never checked, so a ping exiting 1 still yields `Ok(())`, and
`up()` succeeds — a non-zero ping exit is not fatal, contradicting the
claim (and the function's own "tunnel broken" error context). -/
theorem c4_ping_exit_ignored :
    (test_connection "10.50.0.2" (.ok 1)).1
      = { program := "ping", args := ["-c1", "-w5", "10.50.0.2"] } ∧
    (test_connection "10.50.0.2" (.ok 1)).2 = .ok () ∧
    (TunnelManager.up m0 env_ping_fail).isOk = true := by
  refine ⟨rfl, rfl, ?_⟩
  decide

/-- Claim C9: the supervisor paths. When the interrupt handler fires
(`ctrl_c` returns `Ok`), `clean()` is invoked first and, when it
succeeds, the process exits 0; when handler installation fails, the
process exits 10 without invoking `clean`; and when `up()` fails, `main`
invokes `clean()` and exits 2. -/
theorem c9_lifecycle_supervisor :
    (∀ c : Except String Unit,
      (TunnelManager.block (.ok ()) c).1.head? = some .runClean) ∧
    TunnelManager.block (.ok ()) (.ok ()) = ([.runClean, .exitCode 0], .ok ()) ∧
    (∀ (e : String) (c : Except String Unit),
      TunnelManager.block (.error e) c = ([.exitCode 10], .ok ())) ∧
    (∀ e : String, main_up_error_path (.error e) = [.runClean, .exitCode 2]) := by
  refine ⟨?_, rfl, ?_, ?_⟩
  · intro c; cases c <;> rfl
  · intro e c; rfl
  · intro e; rfl

/-- Any integer accepted by the i32 parser lies within the i32 range;
this is the overflow check of `str::parse::<i32>()`. -/
theorem parse_i32_bounds {cs : List Char} {v : Int}
    (h : parse_i32 cs = .ok v) :
    -2147483648 ≤ v ∧ v ≤ 2147483647 := by
  simp only [parse_i32] at h
  split at h
  · exact Except.noConfusion h
  · split at h
    · split at h
      · split at h
        · exact Except.noConfusion h
        · rename_i hcond
          injection h with h
          subst h
          push_neg at hcond
          exact hcond
      · split at h
        · exact Except.noConfusion h
        · rename_i hcond
          injection h with h
          subst h
          push_neg at hcond
          exact hcond
    · exact Except.noConfusion h

/-- Claim C5, amended: every `ServicePort` produced by the parser has
`port` and `local_port` in the i32 range (that is the only range check
the parser performs; there is no 1..65535 check). -/
theorem c5_ports_i32_range :
    ∀ (s : String) (sp : ServicePort),
    ServicePort.try_from s = .ok sp →
    (-2147483648 ≤ sp.port ∧ sp.port ≤ 2147483647) ∧
    (-2147483648 ≤ sp.local_port ∧ sp.local_port ≤ 2147483647) := by
  intro s sp h
  simp only [ServicePort.try_from] at h
  split at h
  · exact Except.noConfusion h
  · rename_i port hport
    split at h
    · rename_i p
      split at h
      · exact Except.noConfusion h
      · rename_i lp hlp
        injection h with h
        subst h
        exact ⟨parse_i32_bounds hport, parse_i32_bounds hlp⟩
    · injection h with h
      subst h
      exact ⟨parse_i32_bounds hport, parse_i32_bounds hport⟩

/-- Claim C5, witness: the amended theorem applied to `"88888:9999"`. -/
theorem c5_ports_i32_range_witness :
    ServicePort.try_from "88888:9999"
      = .ok { port := 88888, local_port := 9999, protocol := "TCP" } ∧
    ((-2147483648 ≤ (88888 : Int) ∧ (88888 : Int) ≤ 2147483647) ∧
     (-2147483648 ≤ (9999 : Int) ∧ (9999 : Int) ≤ 2147483647)) :=
  ⟨by decide,
   c5_ports_i32_range "88888:9999"
     { port := 88888, local_port := 9999, protocol := "TCP" } (by decide)⟩

/-- The availability fold of `subnet_available`, expressed as `List.all`. -/
theorem foldl_avail (f : Nat → Bool) :
    ∀ (l : List Nat) (b : Bool),
    l.foldl (fun avail h => if f h then false else avail) b
      = (b && l.all fun h => ! f h)
  | [], b => by simp
  | a :: l, b => by
    simp only [List.foldl_cons, List.all_cons]
    rw [foldl_avail f l (if f a then false else b)]
    cases hfa : f a <;> simp [hfa, Bool.and_assoc]

/-- `subnet_available` holds exactly when every host address of the subnet
is unbound. -/
theorem subnet_available_eq_all (f : Nat → Bool) (n : IpNet) :
    subnet_available f n = n.hosts.all fun h => ! f h := by
  unfold subnet_available
  rw [foldl_avail]
  simp

/-- Any subnet returned by the allocator loop was available when it was
returned. -/
theorem loop_ok_available (f : Nat → Bool) :
    ∀ (l : List IpNet) (n : IpNet),
    generate_unused_subnet_loop f l = .ok n → subnet_available f n = true := by
  intro l
  induction l with
  | nil => intro n h; exact Except.noConfusion h
  | cons sn rest ih =>
    intro n h
    simp only [generate_unused_subnet_loop] at h
    split at h
    · exact ih n h
    · split at h
      · rename_i hav
        injection h with h
        subst h
        exact hav
      · exact ih n h

/-- Claim C7: on a host with no `10.50.0.*` address bound, the first call
to `generate_unused_subnet` returns `10.50.0.0/30` (address 171048960,
prefix 30); any returned subnet has none of its host addresses bound;
and if every address of the `/28` parent is bound, the allocator errors. -/
theorem c7_subnet_allocator :
    (∀ f : Nat → Bool,
      (∀ a, 171048960 ≤ a → a < 171049216 → f a = false) →
      generate_unused_subnet f = .ok { addr := 171048960, prefixLen := 30 }) ∧
    (∀ (f : Nat → Bool) (n : IpNet),
      generate_unused_subnet f = .ok n → ∀ a ∈ n.hosts, f a = false) ∧
    (∀ f : Nat → Bool,
      (∀ a, 171048960 ≤ a → a < 171048976 → f a = true) →
      ∃ e, generate_unused_subnet f = .error e) := by
  refine ⟨?_, ?_, ?_⟩
  · intro f hf
    have h1 : f 171048961 = false := hf _ (by norm_num) (by norm_num)
    have h2 : f 171048962 = false := hf _ (by norm_num) (by norm_num)
    have havail : subnet_available f { addr := 171048960, prefixLen := 30 } = true := by
      rw [subnet_available_eq_all]
      rw [show IpNet.hosts { addr := 171048960, prefixLen := 30 }
            = [171048961, 171048962] by decide]
      simp [h1, h2]
    unfold generate_unused_subnet
    rw [show INNISFREE_SUBNET.subnets 30
          = [{ addr := 171048960, prefixLen := 30 }, { addr := 171048964, prefixLen := 30 },
             { addr := 171048968, prefixLen := 30 }, { addr := 171048972, prefixLen := 30 }]
        by decide]
    simp only [generate_unused_subnet_loop]
    rw [if_neg (by decide), if_pos havail]
  · intro f n h a hmem
    have h' : generate_unused_subnet_loop f (INNISFREE_SUBNET.subnets 30) = .ok n := h
    have hav := loop_ok_available f _ _ h'
    rw [subnet_available_eq_all] at hav
    have := List.all_eq_true.mp hav _ hmem
    simpa using this
  · intro f hf
    refine ⟨"No available subnets within 10.50.0.1/28", ?_⟩
    have hu0 : subnet_available f { addr := 171048960, prefixLen := 30 } = false := by
      rw [subnet_available_eq_all,
          show IpNet.hosts { addr := 171048960, prefixLen := 30 }
            = [171048961, 171048962] by decide]
      simp [hf 171048961 (by norm_num) (by norm_num)]
    have hu1 : subnet_available f { addr := 171048964, prefixLen := 30 } = false := by
      rw [subnet_available_eq_all,
          show IpNet.hosts { addr := 171048964, prefixLen := 30 }
            = [171048965, 171048966] by decide]
      simp [hf 171048965 (by norm_num) (by norm_num)]
    have hu2 : subnet_available f { addr := 171048968, prefixLen := 30 } = false := by
      rw [subnet_available_eq_all,
          show IpNet.hosts { addr := 171048968, prefixLen := 30 }
            = [171048969, 171048970] by decide]
      simp [hf 171048969 (by norm_num) (by norm_num)]
    have hu3 : subnet_available f { addr := 171048972, prefixLen := 30 } = false := by
      rw [subnet_available_eq_all,
          show IpNet.hosts { addr := 171048972, prefixLen := 30 }
            = [171048973, 171048974] by decide]
      simp [hf 171048973 (by norm_num) (by norm_num)]
    unfold generate_unused_subnet
    rw [show INNISFREE_SUBNET.subnets 30
          = [{ addr := 171048960, prefixLen := 30 }, { addr := 171048964, prefixLen := 30 },
             { addr := 171048968, prefixLen := 30 }, { addr := 171048972, prefixLen := 30 }]
        by decide]
    simp only [generate_unused_subnet_loop]
    rw [if_neg (by decide), if_neg (by simp [hu0]),
        if_neg (by decide), if_neg (by simp [hu1]),
        if_neg (by decide), if_neg (by simp [hu2]),
        if_neg (by decide), if_neg (by simp [hu3])]

/-- Claim C7, witness: the main theorem applied to the host state with no
bound addresses (first call returns 10.50.0.0/30) and to the saturated
host state (allocation errors). -/
theorem c7_subnet_allocator_witness :
    generate_unused_subnet (fun _ => false)
      = .ok { addr := 171048960, prefixLen := 30 } ∧
    (fun _ => false : Nat → Bool) 171048961 = false ∧
    ∃ e, generate_unused_subnet (fun _ => true) = .error e :=
  ⟨c7_subnet_allocator.1 (fun _ => false) (fun _ _ _ => rfl),
   c7_subnet_allocator.2.1 (fun _ => false) { addr := 171048960, prefixLen := 30 }
     (c7_subnet_allocator.1 (fun _ => false) (fun _ _ _ => rfl)) 171048961 (by decide),
   c7_subnet_allocator.2.2 (fun _ => true) (fun _ _ _ => rfl)⟩

/-- Claim C8: the emitted cloud-init text always begins with the literal
line `#cloud-config\n`; and when the serializer emits its `---\n`
document start marker, dropping exactly the first four bytes removes it,
so the text after the header is the serializer output without any
document-start marker. -/
theorem c8_cloudinit_header :
    (∀ s : String, ∃ r : List Char,
      (generate_user_data_finalize s).data = "#cloud-config\n".data ++ r) ∧
    (∀ body : String,
      generate_user_data_finalize ("---\n" ++ body) = "#cloud-config\n" ++ body) := by
  constructor
  · intro s
    refine ⟨s.data.drop 4, ?_⟩
    show ("#cloud-config" ++ "\n" ++ (⟨s.data.drop 4⟩ : String)).data = _
    rw [String.data_append, String.data_append]
    rw [show "#cloud-config".data ++ "\n".data = "#cloud-config\n".data by decide]
  · intro body
    show "#cloud-config" ++ "\n" ++ (⟨("---\n" ++ body).data.drop 4⟩ : String)
        = "#cloud-config\n" ++ body
    have hdata : ("---\n" ++ body).data.drop 4 = body.data := by
      rw [String.data_append]
      rfl
    rw [hdata]
    cases body with
    | mk l => rfl

/-- Claim C10: `up` never mutates the manager's stored WireGuard
configuration. On success the returned state equals the input state (in
particular the stored local device's peer endpoint is untouched), and
the one file written is `<name>.conf` rendered from a clone of the local
device whose peer endpoint was set to the server's public IP. -/
theorem c10_up_frame :
    ∀ (m : TunnelManager) (env : UpEnv)
      (res : TunnelManager × List (String × String)),
    TunnelManager.up m env = .ok res →
    res.1 = m ∧
    res.1.wg.wg_local_device.peer.endpoint = m.wg.wg_local_device.peer.endpoint ∧
    ∀ ip, env.ipv4_address = .ok ip →
      res.2 = [(m.name ++ ".conf",
        wg_config_with_services
          { m.wg.wg_local_device with
            peer := { m.wg.wg_local_device.peer with endpoint := some ip } }
          m.services)] := by
  intro m env res h
  cases hip : env.ipv4_address with
  | error e =>
    simp only [TunnelManager.up, hip] at h
    exact Except.noConfusion h
  | ok ip0 =>
    simp only [TunnelManager.up, hip] at h
    cases hcs : run_ssh_cmd env.cloudinit_ssh with
    | error e => simp only [hcs] at h; exact Except.noConfusion h
    | ok u1 =>
      simp only [hcs] at h
      cases hw : env.wg_write with
      | error e => simp only [hw] at h; exact Except.noConfusion h
      | ok u2 =>
        simp only [hw] at h
        cases hr : run_ssh_cmd env.remote_wg_ssh with
        | error e => simp only [hr] at h; exact Except.noConfusion h
        | ok u3 =>
          simp only [hr] at h
          cases hl : env.local_wg_up with
          | error e => simp only [hl] at h; exact Except.noConfusion h
          | ok u4 =>
            simp only [hl] at h
            cases hp : (test_connection m.wg.wg_remote_ip env.ping).2 with
            | error e => simp only [hp] at h; exact Except.noConfusion h
            | ok u5 =>
              simp only [hp] at h
              injection h with h
              subst h
              refine ⟨rfl, rfl, ?_⟩
              intro ip hip2
              injection hip2 with hip2
              subst hip2
              rfl

/-- Claim C10, witness: the theorem applied to a concrete manager and a
fully successful environment; `up` returns the unchanged manager and one
config file rendered from the endpoint-bearing clone. -/
theorem c10_up_frame_witness :
    TunnelManager.up m0 env_ok = .ok (m0, up_files0) ∧
    (m0, up_files0).1 = m0 ∧
    (m0, up_files0).2 = [(m0.name ++ ".conf",
      wg_config_with_services
        { m0.wg.wg_local_device with
          peer := { m0.wg.wg_local_device.peer with endpoint := some "203.0.113.9" } }
        m0.services)] :=
  ⟨rfl, (c10_up_frame m0 env_ok (m0, up_files0) rfl).1,
   (c10_up_frame m0 env_ok (m0, up_files0) rfl).2.2 "203.0.113.9" rfl⟩
